import Mathlib

/-!
Verification development for the lycoris-mobile map screen
(`src/screens/DocsScreen.tsx`, `MapScreen` component).

The TypeScript source is shallowly embedded: JavaScript numbers that the
relevant code paths only combine with `+ - * /`, remainder and comparisons
are modelled as rationals (`ℚ`), the JS `%` remainder operator (truncated
division) is modelled by `jsMod`, and the stateful pieces (marker query
coordinator, native geolocation guard, draft submission) are modelled as
explicit state-transition functions.
-/

namespace LycorisMobile

/-- Truncation toward zero, as used by the JavaScript `%` operator. -/
def jsTrunc (q : ℚ) : ℤ :=
  if 0 ≤ q then ⌊q⌋ else ⌈q⌉

/-- The JavaScript remainder operator `a % b` (sign follows the dividend). -/
def jsMod (a b : ℚ) : ℚ :=
  a - b * jsTrunc (a / b)

/-- From `DocsScreen.tsx` line 1020: `clampLat` clamps a latitude to [-90, 90]
(`Math.max(-90, Math.min(90, value))`). -/
def clampLat (value : ℚ) : ℚ :=
  max (-90) (min 90 value)

/-- From `DocsScreen.tsx` lines 1022-1025: `normalizeLng` wraps a longitude via
`((value + 180) % 360 + 360) % 360 - 180` and clamps the result to
[-180, 180]. -/
def normalizeLng (value : ℚ) : ℚ :=
  max (-180) (min 180 (jsMod (jsMod (value + 180) 360 + 360) 360 - 180))

/-- Mathematical floor-based remainder by 360; reference value for proofs. -/
def floorMod360 (a : ℚ) : ℚ :=
  a - 360 * ⌊a / 360⌋

/-- Marker categories, from `src/types/marker.ts`. -/
inductive MarkerCategory
  | accessible_toilet
  | friendly_clinic
  | conversion_therapy
  | self_definition
deriving DecidableEq, Repr

/-- A map marker, from `src/types/marker.ts` (`MapMarker`). -/
structure MapMarker where
  id : ℤ
  lat : ℚ
  lng : ℚ
  category : MarkerCategory
  title : String
  description : String
  isPublic : Bool
  isActive : Bool
  openTimeStart : Option String
  openTimeEnd : Option String
  markImage : Option String
  username : String
  userPublicId : Option String
deriving DecidableEq, Repr

/-- Viewport bounds, from `DocsScreen.tsx` lines 778-785 (`ViewportBounds`). -/
structure ViewportBounds where
  minLat : ℚ
  maxLat : ℚ
  minLng : ℚ
  maxLng : ℚ
  wrapsAntimeridian : Bool
  wholeWorld : Bool
deriving DecidableEq, Repr

/-- Camera state, from `DocsScreen.tsx` lines 772-776 (`LatLngZoom`). -/
structure LatLngZoom where
  latitude : ℚ
  longitude : ℚ
  zoom : ℚ
deriving DecidableEq, Repr

/-- From `DocsScreen.tsx` lines 2309-2333 (the `moveend` branch of
`handleWebMessage`): the bounds computed from the renderer-reported
south/north/west/east edges.  `wholeWorld` when the longitude span is at
least 359.999 degrees; otherwise west/east are normalized and the box wraps
the anti-meridian when `minLng > maxLng`. -/
def computeBounds (south north west east : ℚ) : ViewportBounds :=
  let minLat := clampLat (min south north)
  let maxLat := clampLat (max south north)
  let lngSpan := |east - west|
  if 359999 / 1000 ≤ lngSpan then
    { minLat := minLat
      maxLat := maxLat
      minLng := -180
      maxLng := 180
      wrapsAntimeridian := false
      wholeWorld := true }
  else
    let minLng := normalizeLng west
    let maxLng := normalizeLng east
    { minLat := minLat
      maxLat := maxLat
      minLng := minLng
      maxLng := maxLng
      wrapsAntimeridian := decide (maxLng < minLng)
      wholeWorld := false }

/-- From `DocsScreen.tsx` lines 1788-1800 (`loadMarkersInViewport`): the
longitude segments `(minLng, maxLng)` queried for a bounds value — one
full-range query for a whole-world box, one literal query for a
non-wrapping box, and the two segments `[minLng, 180]` and `[-180, maxLng]`
for a box wrapping the anti-meridian. -/
def viewportQuerySegments (b : ViewportBounds) : List (ℚ × ℚ) :=
  if b.wholeWorld then [(-180, 180)]
  else if b.wrapsAntimeridian = false ∧ b.minLng ≤ b.maxLng then
    [(b.minLng, b.maxLng)]
  else [(b.minLng, 180), (-180, b.maxLng)]

/-- One `map.set(marker.id, marker)` step on a JavaScript `Map` represented
as its insertion-ordered value list: an existing entry with the same id is
overwritten in place, a new id is appended. -/
def mapSet (l : List MapMarker) (m : MapMarker) : List MapMarker :=
  if l.any (fun x => x.id == m.id) then
    l.map (fun x => if x.id == m.id then m else x)
  else l ++ [m]

/-- From `DocsScreen.tsx` lines 1801-1807: the two anti-meridian segment
results are concatenated (left first) and folded into a `Map` keyed by
marker id; the merged list is the `Map`'s values. -/
def mergeById (left right : List MapMarker) : List MapMarker :=
  (left ++ right).foldl mapSet []

/-- The mutable state touched by `loadMarkersInViewport`
(`DocsScreen.tsx` lines 1754-1837): the `markers` and `error` React state,
the `loading` indicator, the `hasLoadedMarkersRef` flag and the
`markerQuerySeqRef` counter. -/
structure CoordState where
  markers : List MapMarker
  error : String
  loading : Bool
  hasLoaded : Bool
  seq : ℕ
deriving DecidableEq, Repr

/-- A dispatched viewport request: the sequence number captured at dispatch
time and the longitude segments queried. -/
structure PendingQuery where
  seq : ℕ
  segments : List (ℚ × ℚ)
deriving DecidableEq, Repr

/-- The synchronous prefix of `loadMarkersInViewport`
(`DocsScreen.tsx` lines 1755-1786): on an empty category list it clears the
markers and the error and completes the first load without any network
request (`none`); otherwise it increments the sequence counter, captures it
in a pending request together with the longitude segments to fetch, and
turns the loading indicator on for a first load. -/
def loadMarkersDispatch (s : CoordState) (bounds : ViewportBounds)
    (categories : List MarkerCategory) : CoordState × Option PendingQuery :=
  if categories = [] then
    ({ s with
        markers := []
        error := ""
        hasLoaded := true
        loading := if s.hasLoaded then s.loading else false }, none)
  else
    ({ s with
        seq := s.seq + 1
        loading := if s.hasLoaded then s.loading else true },
     some { seq := s.seq + 1, segments := viewportQuerySegments bounds })

/-- The completion of `loadMarkersInViewport`
(`DocsScreen.tsx` lines 1810-1834): a response whose captured sequence
number differs from the current counter is discarded without any state
change; otherwise success replaces the markers and clears the error,
failure records the error message and keeps the markers, and the `finally`
block finishes the first load. -/
def loadMarkersComplete (s : CoordState) (p : PendingQuery)
    (outcome : Except String (List MapMarker)) : CoordState :=
  if p.seq = s.seq then
    let s1 := match outcome with
      | Except.ok ms => { s with markers := ms, error := "" }
      | Except.error msg => { s with error := msg }
    if s1.hasLoaded then s1 else { s1 with hasLoaded := true, loading := false }
  else s

/-- The mutable state read by the geolocation paths
(`DocsScreen.tsx`): `nativeLocateInFlightRef`, `locationPermissionGranted`,
`nativeFallbackCooldownRef` (ms timestamp) and `userLocation`. -/
structure GeoState where
  inFlight : Bool
  permissionGranted : Bool
  cooldownTs : ℤ
  userLocation : Option (ℚ × ℚ)
deriving DecidableEq, Repr

/-- Whether a call to `requestNativeCurrentLocation` was rejected up front
(resolving `false`) or actually dispatched an OS-level
`getCurrentPosition` call. -/
inductive NativeStartResult
  | rejected
  | dispatched
deriving DecidableEq, Repr

/-- The guard prefix of `requestNativeCurrentLocation`
(`DocsScreen.tsx` lines 1500-1511): platform support, permission and module
availability checks, then the single-flight `nativeLocateInFlightRef`
check; only when all pass is the flag raised and the OS call dispatched. -/
def requestNativeStart (supports moduleAvailable : Bool) (s : GeoState) :
    GeoState × NativeStartResult :=
  if supports = false then (s, NativeStartResult.rejected)
  else if s.permissionGranted = false then (s, NativeStartResult.rejected)
  else if moduleAvailable = false then (s, NativeStartResult.rejected)
  else if s.inFlight then (s, NativeStartResult.rejected)
  else ({ s with inFlight := true }, NativeStartResult.dispatched)

/-- The possible outcomes of a dispatched OS-level `getCurrentPosition`
call, as distinguished by `requestNativeCurrentLocation`
(`DocsScreen.tsx` lines 1513-1556). -/
inductive NativeLocOutcome
  | fix (lat lng : ℚ)
  | invalidPayload
  | failure (code : String)
deriving DecidableEq, Repr

/-- The completion of `requestNativeCurrentLocation`
(`DocsScreen.tsx` lines 1513-1559): a finite fix stores the user location
and resolves `true`; a payload with non-finite coordinates throws and
resolves `false`; a rejection with the distinguished code
`LOCATION_PERMISSION_DENIED` additionally downgrades the permission flag.
The `finally` block clears the in-flight flag on every path. -/
def requestNativeFinish (s : GeoState) (o : NativeLocOutcome) :
    GeoState × Bool :=
  match o with
  | NativeLocOutcome.fix lat lng =>
      ({ s with userLocation := some (lat, lng), inFlight := false }, true)
  | NativeLocOutcome.invalidPayload =>
      ({ s with inFlight := false }, false)
  | NativeLocOutcome.failure code =>
      ({ s with
          permissionGranted :=
            if code = "LOCATION_PERMISSION_DENIED" then false
            else s.permissionGranted
          inFlight := false }, false)

/-- The `geoError` branch of `handleWebMessage`
(`DocsScreen.tsx` lines 2347-2374): with permission granted, an error
arriving less than 1800 ms after the last native-fallback attempt is
ignored; otherwise the cooldown timestamp is set to `now` and
`requestNativeCurrentLocation({silent: true})` is invoked exactly once.
The second component counts those invocations. -/
def handleGeoError (supports moduleAvailable : Bool) (s : GeoState)
    (now : ℤ) : GeoState × ℕ :=
  if s.permissionGranted = false then (s, 0)
  else if now - s.cooldownTs < 1800 then (s, 0)
  else
    ((requestNativeStart supports moduleAvailable
        { s with cooldownTs := now }).1, 1)

/-- The camera update of the `moveend` branch of `handleWebMessage`
(`DocsScreen.tsx` lines 2300-2302): for finite reported values, the
longitude is normalized and the latitude and zoom are stored as
reported. -/
def moveendViewport (lat lng zoom : ℚ) : LatLngZoom :=
  { latitude := lat, longitude := normalizeLng lng, zoom := zoom }

/-- From `DocsScreen.tsx` lines 1030-1047 (`parseStoredViewport`), at the
level of the parsed JSON fields: `none` stands for a missing or non-finite
number.  Missing latitude or longitude rejects the payload; a missing zoom
defaults to 11; the accepted camera is clamped and normalized. -/
def parseStoredViewport (latitude longitude zoom : Option ℚ) :
    Option LatLngZoom :=
  match latitude, longitude with
  | some lat, some lng =>
      some { latitude := clampLat lat
             longitude := normalizeLng lng
             zoom := match zoom with
               | some z => max 3 (min 20 z)
               | none => 11 }
  | _, _ => none

/-- The debounced persistence write of the camera
(`DocsScreen.tsx` lines 2029-2040): the stored payload clamps the
latitude, normalizes the longitude and clamps the zoom to [3, 20]. -/
def persistedViewportPayload (v : LatLngZoom) : LatLngZoom :=
  { latitude := clampLat v.latitude
    longitude := normalizeLng v.longitude
    zoom := max 3 (min 20 v.zoom) }

/-- The camera invariant as stated by the specification (section 3,
Camera): latitude in [-90, 90], longitude in [-180, 180) after
normalization, zoom in [3, 20]. -/
def cameraInvariant (v : LatLngZoom) : Prop :=
  -90 ≤ v.latitude ∧ v.latitude ≤ 90 ∧
  -180 ≤ v.longitude ∧ v.longitude < 180 ∧
  3 ≤ v.zoom ∧ v.zoom ≤ 20

/-- The optimistic list update after a successful draft submit
(`DocsScreen.tsx` line 2643): the returned marker is prepended and any
existing marker with the same id is filtered out. -/
def optimisticUpsert (created : MapMarker) (prev : List MapMarker) :
    List MapMarker :=
  created :: prev.filter (fun m => m.id != created.id)

/-- The network requests issued by the success path of `saveDraft`. -/
inductive SaveAction
  | submitRequest
  | imageUpload (markerId : ℤ)
deriving DecidableEq, Repr

/-- The tail of `saveDraft` after a successful POST/PATCH returning
`created` (`DocsScreen.tsx` lines 2626-2653): with no image attached, the
marker list is updated optimistically; with an image attached, a second
request uploads it against `created.id` — on upload success the server's
marker-with-image (when parseable) replaces `created` in the optimistic
update, while an upload failure jumps to the catch block, leaving the
marker list unchanged and surfacing the error message (third component);
no request ever deletes the created marker. -/
def saveDraftAfterSubmit (prev : List MapMarker) (created : MapMarker)
    (image : Option (Except String (Option MapMarker))) :
    List SaveAction × List MapMarker × Option String :=
  match image with
  | none =>
      ([SaveAction.submitRequest], optimisticUpsert created prev, none)
  | some (Except.ok withImage) =>
      ([SaveAction.submitRequest, SaveAction.imageUpload created.id],
       optimisticUpsert (withImage.getD created) prev, none)
  | some (Except.error msg) =>
      ([SaveAction.submitRequest, SaveAction.imageUpload created.id],
       prev, some msg)

/-- A sample marker for concrete instantiations. -/
def sampleMarker : MapMarker :=
  { id := 7, lat := 10, lng := 20
    category := MarkerCategory.accessible_toilet
    title := "t", description := "", isPublic := true, isActive := true
    openTimeStart := none, openTimeEnd := none, markImage := none
    username := "", userPublicId := none }

/-- A second sample marker sharing id 7. -/
def sampleMarkerB : MapMarker :=
  { sampleMarker with lat := 11 }

/-- A sample marker with id 8. -/
def sampleMarker8 : MapMarker :=
  { sampleMarker with id := 8 }

/-- Concrete coordinator state with sequence counter 4. -/
def c1State : CoordState :=
  { markers := [], error := "", loading := false, hasLoaded := true, seq := 4 }

/-- Concrete non-wrapping bounds. -/
def c1Bounds : ViewportBounds :=
  { minLat := 0, maxLat := 1, minLng := 0, maxLng := 1
    wrapsAntimeridian := false, wholeWorld := false }

/-- Concrete pending request with sequence number 5. -/
def c1Pending5 : PendingQuery :=
  { seq := 5, segments := [((0 : ℚ), (1 : ℚ))] }

/-- Concrete pending request with sequence number 6. -/
def c1Pending6 : PendingQuery :=
  { seq := 6, segments := [((0 : ℚ), (1 : ℚ))] }

/-- Concrete loaded state for the C6 scenario. -/
def c6State : CoordState :=
  { markers := [sampleMarker], error := "", loading := false
    hasLoaded := true, seq := 3 }

/-- Concrete current pending request for the C6 scenario. -/
def c6Pending : PendingQuery :=
  { seq := 3, segments := [] }

/-- Concrete geolocation state with the in-flight flag raised. -/
def c7State : GeoState :=
  { inFlight := true, permissionGranted := true, cooldownTs := 0
    userLocation := none }

/-- Concrete geolocation state with permission granted and cold cooldown. -/
def c8State : GeoState :=
  { inFlight := false, permissionGranted := true, cooldownTs := 0
    userLocation := none }

lemma floorMod360_nonneg (a : ℚ) : 0 ≤ floorMod360 a := by
  have h1 : ((⌊a / 360⌋ : ℚ)) ≤ a / 360 := Int.floor_le _
  have h2 : (360 : ℚ) * (a / 360) = a := by ring
  unfold floorMod360
  linarith

lemma floorMod360_lt (a : ℚ) : floorMod360 a < 360 := by
  have h1 : a / 360 < (⌊a / 360⌋ : ℚ) + 1 := Int.lt_floor_add_one _
  have h2 : (360 : ℚ) * (a / 360) = a := by ring
  unfold floorMod360
  linarith

lemma floor360_zero (x : ℚ) (h0 : 0 ≤ x) (h1 : x < 360) : ⌊x / 360⌋ = 0 := by
  rw [Int.floor_eq_zero_iff]
  constructor
  · exact div_nonneg h0 (by norm_num)
  · rw [div_lt_one (by norm_num)]
    exact h1

lemma floor360_one (x : ℚ) (h0 : 360 ≤ x) (h1 : x < 720) : ⌊x / 360⌋ = 1 := by
  have hlb : ((1 : ℤ) : ℚ) ≤ x / 360 := by
    rw [le_div_iff₀ (by norm_num : (0 : ℚ) < 360)]
    push_cast
    linarith
  have hub : x / 360 < (1 : ℤ) + 1 := by
    rw [div_lt_iff₀ (by norm_num : (0 : ℚ) < 360)]
    push_cast
    linarith
  exact Int.floor_eq_iff.mpr ⟨hlb, hub⟩

lemma jsMod360_of_nonneg (a : ℚ) (h : 0 ≤ a) : jsMod a 360 = floorMod360 a := by
  unfold jsMod jsTrunc floorMod360
  rw [if_pos (div_nonneg h (by norm_num))]

lemma jsMod360_small (x : ℚ) (h0 : 0 ≤ x) (h1 : x < 360) : jsMod x 360 = x := by
  unfold jsMod jsTrunc
  rw [if_pos (div_nonneg h0 (by norm_num)), floor360_zero x h0 h1]
  push_cast
  ring

lemma jsMod360_wrap (r : ℚ) (h0 : 0 ≤ r) (h1 : r < 360) :
    jsMod (r + 360) 360 = r := by
  unfold jsMod jsTrunc
  rw [if_pos (div_nonneg (by linarith) (by norm_num)),
    floor360_one (r + 360) (by linarith) (by linarith)]
  push_cast
  ring

/-- The double-remainder idiom of `normalizeLng` computes the floor-based
remainder by 360, for all (also negative) inputs. -/
lemma jsDoubleMod (a : ℚ) : jsMod (jsMod a 360 + 360) 360 = floorMod360 a := by
  rcases le_or_lt 0 a with ha | ha
  · rw [jsMod360_of_nonneg a ha]
    exact jsMod360_wrap _ (floorMod360_nonneg a) (floorMod360_lt a)
  · have hq : a / 360 < 0 := div_neg_of_neg_of_pos ha (by norm_num)
    obtain ⟨c, hc⟩ : ∃ c : ℤ, c = ⌈a / 360⌉ := ⟨_, rfl⟩
    have htr : jsMod a 360 = a - 360 * (c : ℚ) := by
      unfold jsMod jsTrunc
      rw [if_neg (not_le.mpr hq), ← hc]
    have hceil_ge : a / 360 ≤ (c : ℚ) := by
      rw [hc]
      exact Int.le_ceil _
    have hceil_lt : (c : ℚ) < a / 360 + 1 := by
      rw [hc]
      exact Int.ceil_lt_add_one _
    have hdiv : (360 : ℚ) * (a / 360) = a := by ring
    have hle : a - 360 * (c : ℚ) ≤ 0 := by linarith
    have hgt : -360 < a - 360 * (c : ℚ) := by linarith
    rcases lt_or_eq_of_le hle with hlt | heq
    · rw [htr, jsMod360_small (a - 360 * (c : ℚ) + 360)
        (by linarith) (by linarith)]
      have hfl : ⌊a / 360⌋ = c - 1 := by
        have hlb : ((c - 1 : ℤ) : ℚ) ≤ a / 360 := by
          rw [le_div_iff₀ (by norm_num : (0 : ℚ) < 360)]
          push_cast
          linarith
        have hub : a / 360 < ((c - 1 : ℤ) : ℚ) + 1 := by
          have h2 : a / 360 < (c : ℚ) := by
            rw [div_lt_iff₀ (by norm_num : (0 : ℚ) < 360)]
            linarith
          push_cast
          linarith
        exact Int.floor_eq_iff.mpr ⟨hlb, hub⟩
      unfold floorMod360
      rw [hfl]
      push_cast
      ring
    · rw [htr, heq, jsMod360_wrap 0 (le_refl 0) (by norm_num)]
      have hx : a / 360 = (c : ℚ) := by
        field_simp
        linarith
      have hfl : ⌊a / 360⌋ = c := by
        rw [hx]
        exact Int.floor_intCast c
      unfold floorMod360
      rw [hfl]
      linarith

lemma normalizeLng_eq (v : ℚ) : normalizeLng v = floorMod360 (v + 180) - 180 := by
  unfold normalizeLng
  rw [jsDoubleMod]
  have h0 := floorMod360_nonneg (v + 180)
  have h1 := floorMod360_lt (v + 180)
  rw [min_eq_right (by linarith), max_eq_right (by linarith)]

lemma normalizeLng_lb (v : ℚ) : -180 ≤ normalizeLng v := by
  rw [normalizeLng_eq]
  have := floorMod360_nonneg (v + 180)
  linarith

lemma normalizeLng_ub (v : ℚ) : normalizeLng v < 180 := by
  rw [normalizeLng_eq]
  have := floorMod360_lt (v + 180)
  linarith

/-- A longitude already in [-180, 180) is a fixed point of `normalizeLng`. -/
lemma normalizeLng_fixed (w : ℚ) (h0 : -180 ≤ w) (h1 : w < 180) :
    normalizeLng w = w := by
  rw [normalizeLng_eq]
  unfold floorMod360
  rw [floor360_zero (w + 180) (by linarith) (by linarith)]
  push_cast
  ring

lemma find?_map_overwrite_ne (l : List MapMarker) (m : MapMarker) (i : ℤ)
    (hmi : m.id ≠ i) :
    (l.map (fun x => if x.id == m.id then m else x)).find? (fun x => x.id == i)
      = l.find? (fun x => x.id == i) := by
  induction l with
  | nil => rfl
  | cons x xs ih =>
    by_cases hxm : x.id = m.id
    · have h1 : (if x.id == m.id then m else x) = m := by simp [hxm]
      have hxi : ¬ x.id = i := fun hc => hmi (by rw [← hxm, hc])
      rw [List.map_cons, h1,
        List.find?_cons_of_neg _ (by simp [hmi]),
        List.find?_cons_of_neg _ (by simp [hxi]),
        ih]
    · have h3 : (if x.id == m.id then m else x) = x := by simp [hxm]
      rw [List.map_cons, h3]
      by_cases hxi : x.id = i
      · rw [List.find?_cons_of_pos _ (by simp [hxi]),
          List.find?_cons_of_pos _ (by simp [hxi])]
      · rw [List.find?_cons_of_neg _ (by simp [hxi]),
          List.find?_cons_of_neg _ (by simp [hxi]), ih]

lemma find?_map_overwrite_eq (l : List MapMarker) (m : MapMarker) (i : ℤ)
    (hmi : m.id = i) (h : l.any (fun x => x.id == m.id) = true) :
    (l.map (fun x => if x.id == m.id then m else x)).find? (fun x => x.id == i)
      = some m := by
  induction l with
  | nil => simp at h
  | cons x xs ih =>
    by_cases hxm : x.id = m.id
    · have h1 : (if x.id == m.id then m else x) = m := by simp [hxm]
      rw [List.map_cons, h1, List.find?_cons_of_pos _ (by simp [hmi])]
    · have h3 : (if x.id == m.id then m else x) = x := by simp [hxm]
      have hxi : ¬ x.id = i := fun hc => hxm (by rw [hc, ← hmi])
      have htl : xs.any (fun x => x.id == m.id) = true := by
        rcases List.any_eq_true.mp h with ⟨y, hy, hyp⟩
        rcases List.mem_cons.mp hy with rfl | hymem
        · exact absurd (by simpa using hyp) hxm
        · exact List.any_eq_true.mpr ⟨y, hymem, hyp⟩
      rw [List.map_cons, h3, List.find?_cons_of_neg _ (by simp [hxi]), ih htl]

/-- A `map.set` step's effect on id lookup: the inserted marker wins for its
own id, all other ids are unaffected. -/
lemma find?_mapSet (l : List MapMarker) (m : MapMarker) (i : ℤ) :
    (mapSet l m).find? (fun x => x.id == i) =
      if m.id = i then some m else l.find? (fun x => x.id == i) := by
  unfold mapSet
  by_cases h : l.any (fun x => x.id == m.id) = true
  · rw [if_pos h]
    by_cases hmi : m.id = i
    · rw [if_pos hmi, find?_map_overwrite_eq l m i hmi h]
    · rw [if_neg hmi, find?_map_overwrite_ne l m i hmi]
  · rw [if_neg h, List.find?_append]
    by_cases hmi : m.id = i
    · have hlnone : l.find? (fun x => x.id == i) = none := by
        rw [List.find?_eq_none]
        intro x hx hpx
        exact h (List.any_eq_true.mpr ⟨x, hx, by simp at hpx ⊢; rw [hpx, hmi]⟩)
      rw [if_pos hmi, hlnone, Option.none_or, List.find?_singleton,
        if_pos (by simp [hmi])]
    · rw [if_neg hmi, List.find?_singleton, if_neg (by simp [hmi]), Option.or_none]

/-- Folding `map.set` over a list: the lookup for id `i` in the accumulated
map is the LAST entry with id `i` in the folded list, falling back to the
accumulator — i.e. later writes win. -/
lemma find?_foldl_mapSet (ms : List MapMarker) (acc : List MapMarker) (i : ℤ) :
    (ms.foldl mapSet acc).find? (fun x => x.id == i) =
      (ms.reverse.find? (fun x => x.id == i)).or
        (acc.find? (fun x => x.id == i)) := by
  induction ms generalizing acc with
  | nil => simp
  | cons m tl ih =>
    rw [List.foldl_cons, ih (mapSet acc m), find?_mapSet, List.reverse_cons,
      List.find?_append]
    cases htl : tl.reverse.find? (fun x => x.id == i) with
    | some y => simp
    | none =>
      rw [Option.none_or, Option.none_or, List.find?_singleton]
      by_cases hmi : m.id = i
      · rw [if_pos hmi, if_pos (by simp [hmi]), Option.or_some]
      · rw [if_neg hmi, if_neg (by simp [hmi]), Option.none_or]

/-- Looking up any id in the merged anti-meridian result returns the last
marker with that id in the concatenation (left segment first): later writes
win on an id collision. -/
lemma mergeById_find? (left right : List MapMarker) (i : ℤ) :
    (mergeById left right).find? (fun x => x.id == i) =
      (left ++ right).reverse.find? (fun x => x.id == i) := by
  unfold mergeById
  rw [find?_foldl_mapSet, List.find?_nil, Option.or_none]

lemma computeBounds_whole (south north west east : ℚ)
    (h : 359999 / 1000 ≤ |east - west|) :
    computeBounds south north west east =
      { minLat := clampLat (min south north)
        maxLat := clampLat (max south north)
        minLng := -180
        maxLng := 180
        wrapsAntimeridian := false
        wholeWorld := true } := by
  simp only [computeBounds]
  rw [if_pos h]

lemma computeBounds_notWhole (south north west east : ℚ)
    (h : ¬ 359999 / 1000 ≤ |east - west|) :
    computeBounds south north west east =
      { minLat := clampLat (min south north)
        maxLat := clampLat (max south north)
        minLng := normalizeLng west
        maxLng := normalizeLng east
        wrapsAntimeridian := decide (normalizeLng east < normalizeLng west)
        wholeWorld := false } := by
  simp only [computeBounds]
  rw [if_neg h]

lemma loadMarkersComplete_seq (s : CoordState) (p : PendingQuery)
    (o : Except String (List MapMarker)) :
    (loadMarkersComplete s p o).seq = s.seq := by
  unfold loadMarkersComplete
  by_cases h : p.seq = s.seq
  · rw [if_pos h]
    cases o <;> by_cases h2 : s.hasLoaded <;> simp [h2]
  · rw [if_neg h]

lemma loadMarkersComplete_markers_ok (s : CoordState) (p : PendingQuery)
    (ms : List MapMarker) (h : p.seq = s.seq) :
    (loadMarkersComplete s p (Except.ok ms)).markers = ms := by
  unfold loadMarkersComplete
  rw [if_pos h]
  by_cases h2 : s.hasLoaded <;> simp [h2]

lemma loadMarkersComplete_stale (s : CoordState) (p : PendingQuery)
    (o : Except String (List MapMarker)) (h : ¬ p.seq = s.seq) :
    loadMarkersComplete s p o = s := by
  unfold loadMarkersComplete
  rw [if_neg h]

/-- C4: for every longitude `v`, `normalizeLng v` lies in the half-open
interval [-180, 180), `normalizeLng` is idempotent, and the result differs
from the input by an exact integer multiple of 360 (negative inputs are
wrapped with no off-by-360 error). -/
theorem c4_normalizeLng_range_idempotent (v : ℚ) :
    (-180 ≤ normalizeLng v ∧ normalizeLng v < 180) ∧
    normalizeLng (normalizeLng v) = normalizeLng v ∧
    ∃ k : ℤ, normalizeLng v = v - 360 * k := by
  refine ⟨⟨normalizeLng_lb v, normalizeLng_ub v⟩, ?_, ?_⟩
  · exact normalizeLng_fixed _ (normalizeLng_lb v) (normalizeLng_ub v)
  · refine ⟨⌊(v + 180) / 360⌋, ?_⟩
    rw [normalizeLng_eq]
    unfold floorMod360
    ring

/-- C3: every reported edge pair with `|east - west| ≥ 359.999` produces
whole-world bounds (`wholeWorld = true`, `wrapsAntimeridian = false`,
`minLng = -180`, `maxLng = 180`), and `loadMarkersInViewport` issues
exactly one query covering the full longitude range [-180, 180]. -/
theorem c3_whole_world_single_query (south north west east : ℚ)
    (h : 359999 / 1000 ≤ |east - west|) :
    (computeBounds south north west east).wholeWorld = true ∧
    (computeBounds south north west east).wrapsAntimeridian = false ∧
    (computeBounds south north west east).minLng = -180 ∧
    (computeBounds south north west east).maxLng = 180 ∧
    viewportQuerySegments (computeBounds south north west east) =
      [(-180, 180)] := by
  rw [computeBounds_whole south north west east h]
  refine ⟨rfl, rfl, rfl, rfl, ?_⟩
  simp [viewportQuerySegments]

/-- C3 witness: the edges south = 0, north = 0, west = -180, east = 180. -/
theorem c3_whole_world_single_query_witness :
    (computeBounds 0 0 (-180) 180).wholeWorld = true ∧
    (computeBounds 0 0 (-180) 180).wrapsAntimeridian = false ∧
    (computeBounds 0 0 (-180) 180).minLng = -180 ∧
    (computeBounds 0 0 (-180) 180).maxLng = 180 ∧
    viewportQuerySegments (computeBounds 0 0 (-180) 180) = [(-180, 180)] :=
  c3_whole_world_single_query 0 0 (-180) 180 (by norm_num)

/-- C2: a box reported with west = 170 and east = -170 yields
`wrapsAntimeridian = true`, `minLng = 170`, `maxLng = -170` (and is not
whole-world); `loadMarkersInViewport` issues exactly the two segments
[170, 180] and [-180, -170]; and the two result lists are merged by marker
id with the later write winning on a collision (the merged lookup for any
id is the last entry with that id in the left-then-right concatenation). -/
theorem c2_antimeridian_split_and_merge (south north : ℚ) :
    ((computeBounds south north 170 (-170)).wholeWorld = false ∧
     (computeBounds south north 170 (-170)).wrapsAntimeridian = true ∧
     (computeBounds south north 170 (-170)).minLng = 170 ∧
     (computeBounds south north 170 (-170)).maxLng = -170 ∧
     viewportQuerySegments (computeBounds south north 170 (-170)) =
       [(170, 180), (-180, -170)]) ∧
    ∀ (left right : List MapMarker) (i : ℤ),
      (mergeById left right).find? (fun x => x.id == i) =
        (left ++ right).reverse.find? (fun x => x.id == i) := by
  constructor
  · rw [computeBounds_notWhole south north 170 (-170) (by norm_num),
      normalizeLng_fixed 170 (by norm_num) (by norm_num),
      normalizeLng_fixed (-170) (by norm_num) (by norm_num)]
    refine ⟨rfl, ?_, rfl, rfl, ?_⟩
    · show decide ((-170 : ℚ) < 170) = true
      decide
    · simp [viewportQuerySegments]
  · exact mergeById_find?

lemma loadMarkersDispatch_nonempty (s : CoordState) (b : ViewportBounds)
    (c : List MarkerCategory) (h : c ≠ []) :
    loadMarkersDispatch s b c =
      ({ s with
          seq := s.seq + 1
          loading := if s.hasLoaded then s.loading else true },
       some { seq := s.seq + 1, segments := viewportQuerySegments b }) := by
  unfold loadMarkersDispatch
  rw [if_neg h]

/-- C1: a viewport response whose captured sequence number no longer equals
the coordinator's current sequence number at completion is discarded
silently.  Dispatching two overlapping queries from a state with counter 4
gives them sequence numbers 5 and 6; completing 6 first makes the marker
set reflect response 6, and the late completion of 5 leaves the whole state
unchanged (no marker change, no error). -/
theorem c1_stale_viewport_response_discarded
    (s : CoordState) (b₁ b₂ : ViewportBounds)
    (c₁ c₂ : List MarkerCategory) (l₅ l₆ : List MapMarker)
    (p₅ p₆ : PendingQuery)
    (h₁ : c₁ ≠ []) (h₂ : c₂ ≠ []) (hs : s.seq = 4)
    (hp₅ : (loadMarkersDispatch s b₁ c₁).2 = some p₅)
    (hp₆ : (loadMarkersDispatch (loadMarkersDispatch s b₁ c₁).1 b₂ c₂).2
      = some p₆) :
    p₅.seq = 5 ∧ p₆.seq = 6 ∧
    (loadMarkersComplete
        (loadMarkersDispatch (loadMarkersDispatch s b₁ c₁).1 b₂ c₂).1
        p₆ (Except.ok l₆)).markers = l₆ ∧
    loadMarkersComplete
        (loadMarkersComplete
          (loadMarkersDispatch (loadMarkersDispatch s b₁ c₁).1 b₂ c₂).1
          p₆ (Except.ok l₆))
        p₅ (Except.ok l₅) =
      loadMarkersComplete
        (loadMarkersDispatch (loadMarkersDispatch s b₁ c₁).1 b₂ c₂).1
        p₆ (Except.ok l₆) := by
  rw [loadMarkersDispatch_nonempty s b₁ c₁ h₁] at hp₅ hp₆ ⊢
  dsimp only at hp₅ hp₆ ⊢
  rw [loadMarkersDispatch_nonempty _ b₂ c₂ h₂] at hp₆ ⊢
  dsimp only at hp₆ ⊢
  injection hp₅ with hp₅e
  injection hp₆ with hp₆e
  subst hp₅e
  subst hp₆e
  refine ⟨by dsimp only; omega, by dsimp only; omega, ?_, ?_⟩
  · apply loadMarkersComplete_markers_ok
    dsimp only
  · apply loadMarkersComplete_stale
    rw [loadMarkersComplete_seq]
    dsimp only
    omega

/-- C1 witness: the scenario at a concrete state with counter 4. -/
theorem c1_stale_viewport_response_discarded_witness :
    c1Pending5.seq = 5 ∧ c1Pending6.seq = 6 ∧
    (loadMarkersComplete
        (loadMarkersDispatch
          (loadMarkersDispatch c1State c1Bounds
            [MarkerCategory.accessible_toilet]).1
          c1Bounds [MarkerCategory.accessible_toilet]).1
        c1Pending6 (Except.ok [sampleMarker])).markers = [sampleMarker] ∧
    loadMarkersComplete
        (loadMarkersComplete
          (loadMarkersDispatch
            (loadMarkersDispatch c1State c1Bounds
              [MarkerCategory.accessible_toilet]).1
            c1Bounds [MarkerCategory.accessible_toilet]).1
          c1Pending6 (Except.ok [sampleMarker]))
        c1Pending5 (Except.ok []) =
      loadMarkersComplete
        (loadMarkersDispatch
          (loadMarkersDispatch c1State c1Bounds
            [MarkerCategory.accessible_toilet]).1
          c1Bounds [MarkerCategory.accessible_toilet]).1
        c1Pending6 (Except.ok [sampleMarker]) :=
  c1_stale_viewport_response_discarded c1State c1Bounds c1Bounds
    [MarkerCategory.accessible_toilet] [MarkerCategory.accessible_toilet]
    [] [sampleMarker] c1Pending5 c1Pending6
    (by decide) (by decide) rfl rfl rfl

/-- C5: calling `loadMarkersInViewport` with an empty category list, for any
bounds and any coordinator state, issues no network request, resolves with
an empty marker set and a cleared error, leaves the sequence counter
unchanged, marks the first load as completed, and turns the loading
indicator off exactly when this was the first load. -/
theorem c5_empty_categories_fast_path (s : CoordState) (b : ViewportBounds) :
    (loadMarkersDispatch s b []).2 = none ∧
    (loadMarkersDispatch s b []).1.markers = [] ∧
    (loadMarkersDispatch s b []).1.error = "" ∧
    (loadMarkersDispatch s b []).1.seq = s.seq ∧
    (loadMarkersDispatch s b []).1.hasLoaded = true ∧
    (loadMarkersDispatch s b []).1.loading =
      (if s.hasLoaded then s.loading else false) := by
  unfold loadMarkersDispatch
  rw [if_pos rfl]
  exact ⟨rfl, rfl, rfl, rfl, rfl, rfl⟩

/-- C6: when a viewport query fails while still being the newest request,
the error message becomes visible, the previously loaded marker list is
retained unchanged, and the first-load bookkeeping is settled (the sequence
counter is also untouched). -/
theorem c6_failure_retains_markers (s : CoordState) (p : PendingQuery)
    (msg : String) (hseq : p.seq = s.seq) :
    (loadMarkersComplete s p (Except.error msg)).markers = s.markers ∧
    (loadMarkersComplete s p (Except.error msg)).error = msg ∧
    (loadMarkersComplete s p (Except.error msg)).hasLoaded = true ∧
    (loadMarkersComplete s p (Except.error msg)).loading =
      (if s.hasLoaded then s.loading else false) ∧
    (loadMarkersComplete s p (Except.error msg)).seq = s.seq := by
  unfold loadMarkersComplete
  rw [if_pos hseq]
  by_cases h2 : s.hasLoaded <;> simp [h2]

/-- C6 witness: a failing current request over a state holding one marker. -/
theorem c6_failure_retains_markers_witness :
    (loadMarkersComplete c6State c6Pending
      (Except.error "network error")).markers = c6State.markers ∧
    (loadMarkersComplete c6State c6Pending
      (Except.error "network error")).error = "network error" ∧
    (loadMarkersComplete c6State c6Pending
      (Except.error "network error")).hasLoaded = true ∧
    (loadMarkersComplete c6State c6Pending
      (Except.error "network error")).loading =
      (if c6State.hasLoaded then c6State.loading else false) ∧
    (loadMarkersComplete c6State c6Pending
      (Except.error "network error")).seq = c6State.seq :=
  c6_failure_retains_markers c6State c6Pending "network error" rfl


lemma clampLat_mem (v : ℚ) : -90 ≤ clampLat v ∧ clampLat v ≤ 90 := by
  unfold clampLat
  exact ⟨le_max_left _ _, max_le (by norm_num) (min_le_left _ _)⟩

lemma zoomClamp_mem (z : ℚ) : 3 ≤ max 3 (min 20 z) ∧ max 3 (min 20 z) ≤ 20 :=
  ⟨le_max_left _ _, max_le (by norm_num) (min_le_left _ _)⟩

lemma countP_filter_ne (prev : List MapMarker) (i : ℤ) :
    (prev.filter (fun m => m.id != i)).countP (fun m => m.id == i) = 0 := by
  induction prev with
  | nil => rfl
  | cons x xs ih =>
    by_cases hx : x.id = i
    · simp [List.filter_cons, hx, ih]
    · simp [List.filter_cons, hx, List.countP_cons, ih]

/-- C7: the native location request is single-flight — a call made while the
in-flight flag is set returns rejected without touching the state (no
OS-level `getCurrentPosition` dispatch), and every completion path (fix,
invalid payload, failure) clears the in-flight flag. -/
theorem c7_native_single_flight (supports moduleAvailable : Bool)
    (s : GeoState) (h : s.inFlight = true) :
    requestNativeStart supports moduleAvailable s
      = (s, NativeStartResult.rejected) ∧
    ∀ (t : GeoState) (o : NativeLocOutcome),
      (requestNativeFinish t o).1.inFlight = false := by
  constructor
  · unfold requestNativeStart
    split_ifs <;> rfl
  · intro t o
    cases o <;> rfl

/-- C7 witness: a concurrent call over an in-flight state is rejected, and
an invalid-payload completion clears the flag. -/
theorem c7_native_single_flight_witness :
    requestNativeStart true true c7State = (c7State, NativeStartResult.rejected) ∧
    (requestNativeFinish c7State NativeLocOutcome.invalidPayload).1.inFlight
      = false :=
  ⟨(c7_native_single_flight true true c7State rfl).1,
   (c7_native_single_flight true true c7State rfl).2 c7State
     NativeLocOutcome.invalidPayload⟩

/-- C8: a renderer geoError received with location permission granted is
ignored (state unchanged, no native request invocation) when less than
1800 ms have elapsed since the last fallback attempt; otherwise the
cooldown timestamp is set to the current time and exactly one silent
native location request is invoked. -/
theorem c8_geoError_cooldown_gate (supports moduleAvailable : Bool)
    (s : GeoState) (now : ℤ) (h : s.permissionGranted = true) :
    (now - s.cooldownTs < 1800 →
      handleGeoError supports moduleAvailable s now = (s, 0)) ∧
    (1800 ≤ now - s.cooldownTs →
      (handleGeoError supports moduleAvailable s now).2 = 1 ∧
      (handleGeoError supports moduleAvailable s now).1.cooldownTs = now) := by
  have hperm : ¬ s.permissionGranted = false := by simp [h]
  constructor
  · intro hc
    unfold handleGeoError
    rw [if_neg hperm, if_pos hc]
  · intro hc
    unfold handleGeoError
    rw [if_neg hperm, if_neg (not_lt.mpr hc)]
    refine ⟨rfl, ?_⟩
    have hpres : ∀ t : GeoState,
        (requestNativeStart supports moduleAvailable t).1.cooldownTs
          = t.cooldownTs := by
      intro t
      unfold requestNativeStart
      split_ifs <;> rfl
    rw [hpres]

/-- C8 witness: a geoError at time 2000 ms against cooldown timestamp 0. -/
theorem c8_geoError_cooldown_gate_witness :
    (handleGeoError true true c8State 2000).2 = 1 ∧
    (handleGeoError true true c8State 2000).1.cooldownTs = 2000 :=
  (c8_geoError_cooldown_gate true true c8State 2000 rfl).2 (by decide)

/-- C9 counterexample: an accepted moveend event reporting latitude 95
stores latitude 95 unclamped, violating the claimed camera invariant. -/
theorem c9_camera_invariant_counterexample :
    ¬ cameraInvariant (moveendViewport 95 0 11) := by
  intro h
  have h2 : (moveendViewport 95 0 11).latitude ≤ 90 := h.2.1
  have h3 : (moveendViewport 95 0 11).latitude = 95 := rfl
  rw [h3] at h2
  norm_num at h2

/-- C9 (amended): the camera invariant (latitude in [-90, 90], longitude in
[-180, 180), zoom in [3, 20]) holds after a restore at startup and after
every persistence write; after an accepted renderer moveend event only the
longitude is normalized into [-180, 180) — the latitude and the zoom are
stored exactly as reported, without clamping. -/
theorem c9_camera_invariant_amended :
    (∀ (la ln z : Option ℚ) (v : LatLngZoom),
      parseStoredViewport la ln z = some v → cameraInvariant v) ∧
    (∀ v : LatLngZoom, cameraInvariant (persistedViewportPayload v)) ∧
    (∀ lat lng zoom : ℚ,
      (moveendViewport lat lng zoom).latitude = lat ∧
      -180 ≤ (moveendViewport lat lng zoom).longitude ∧
      (moveendViewport lat lng zoom).longitude < 180 ∧
      (moveendViewport lat lng zoom).zoom = zoom) := by
  refine ⟨?_, ?_, ?_⟩
  · intro la ln z v h
    cases la with
    | none => simp [parseStoredViewport] at h
    | some lat =>
      cases ln with
      | none => simp [parseStoredViewport] at h
      | some lng =>
        simp only [parseStoredViewport, Option.some.injEq] at h
        subst h
        unfold cameraInvariant
        refine ⟨(clampLat_mem lat).1, (clampLat_mem lat).2,
          normalizeLng_lb lng, normalizeLng_ub lng, ?_, ?_⟩
        · cases z with
          | none => norm_num
          | some zz => exact (zoomClamp_mem zz).1
        · cases z with
          | none => norm_num
          | some zz => exact (zoomClamp_mem zz).2
  · intro v
    unfold cameraInvariant persistedViewportPayload
    exact ⟨(clampLat_mem _).1, (clampLat_mem _).2, normalizeLng_lb _,
      normalizeLng_ub _, (zoomClamp_mem _).1, (zoomClamp_mem _).2⟩
  · intro lat lng zoom
    exact ⟨rfl, normalizeLng_lb lng, normalizeLng_ub lng, rfl⟩

/-- C9 witness: a persisted camera from out-of-range values satisfies the
invariant, as does the camera restored from the stored payload
latitude 95, longitude 100, zoom 25. -/
theorem c9_camera_invariant_amended_witness :
    cameraInvariant (persistedViewportPayload
      { latitude := 95, longitude := 200, zoom := 25 }) ∧
    cameraInvariant { latitude := (90 : ℚ), longitude := 100, zoom := 20 } :=
  ⟨c9_camera_invariant_amended.2.1 _,
   c9_camera_invariant_amended.1 (some 95) (some 100) (some 25)
     { latitude := 90, longitude := 100, zoom := 20 }
     (by
       have e1 : clampLat (95 : ℚ) = 90 := by
         unfold clampLat
         rw [min_eq_left (by norm_num : (90 : ℚ) ≤ 95),
           max_eq_right (by norm_num : (-90 : ℚ) ≤ 90)]
       have e2 : normalizeLng (100 : ℚ) = 100 :=
         normalizeLng_fixed 100 (by norm_num) (by norm_num)
       have e3 : max (3 : ℚ) (min 20 25) = 20 := by
         rw [min_eq_left (by norm_num : (20 : ℚ) ≤ 25),
           max_eq_right (by norm_num : (3 : ℚ) ≤ 20)]
       unfold parseStoredViewport
       dsimp only
       rw [e1, e2, e3])⟩

/-- C10: after any successful submit the local marker list is updated
optimistically — the returned marker sits exactly once at the head, every
other prior marker survives in its original order — also with an attached
image, whose upload is issued strictly after the submit request and keyed
by the created marker's id, and whose failure leaves the marker list
unchanged, surfaces the error, and issues no rollback request. -/
theorem c10_optimistic_update (created : MapMarker) (prev : List MapMarker)
    (withImage : Option MapMarker) (msg : String) :
    (optimisticUpsert created prev).head? = some created ∧
    (optimisticUpsert created prev).countP (fun m => m.id == created.id) = 1 ∧
    (optimisticUpsert created prev).tail.Sublist prev ∧
    (∀ m ∈ prev, m.id ≠ created.id →
      m ∈ (optimisticUpsert created prev).tail) ∧
    saveDraftAfterSubmit prev created none =
      ([SaveAction.submitRequest], optimisticUpsert created prev, none) ∧
    saveDraftAfterSubmit prev created (some (Except.ok withImage)) =
      ([SaveAction.submitRequest, SaveAction.imageUpload created.id],
        optimisticUpsert (withImage.getD created) prev, none) ∧
    saveDraftAfterSubmit prev created (some (Except.error msg)) =
      ([SaveAction.submitRequest, SaveAction.imageUpload created.id],
        prev, some msg) := by
  refine ⟨rfl, ?_, ?_, ?_, rfl, rfl, rfl⟩
  · unfold optimisticUpsert
    rw [List.countP_cons_of_pos _ _ (by simp), countP_filter_ne]
  · unfold optimisticUpsert
    exact List.filter_sublist prev
  · intro m hm hne
    unfold optimisticUpsert
    exact List.mem_filter.mpr ⟨hm, by simp [hne]⟩

/-- C10 witness: an edit of marker id 7 over a list holding ids 7 and 8,
and a failing image upload leaving the list unchanged. -/
theorem c10_optimistic_update_witness :
    (optimisticUpsert sampleMarkerB [sampleMarker, sampleMarker8]).head?
      = some sampleMarkerB ∧
    sampleMarker8 ∈
      (optimisticUpsert sampleMarkerB [sampleMarker, sampleMarker8]).tail ∧
    saveDraftAfterSubmit [sampleMarker] sampleMarkerB
        (some (Except.error "upload failed")) =
      ([SaveAction.submitRequest, SaveAction.imageUpload sampleMarkerB.id],
        [sampleMarker], some "upload failed") :=
  ⟨(c10_optimistic_update sampleMarkerB [sampleMarker, sampleMarker8]
      none "x").1,
   (c10_optimistic_update sampleMarkerB [sampleMarker, sampleMarker8]
      none "x").2.2.2.1 sampleMarker8 (by simp) (by decide),
   (c10_optimistic_update sampleMarkerB [sampleMarker]
      none "upload failed").2.2.2.2.2.2⟩

end LycorisMobile
